import Mathlib

/-!
# Verification of the MDAC automation core (`mdac_automation.py`)

A shallow embedding of the session-orchestration subsystem of the MDAC
browser-automation repository, together with theorems settling the frozen
claims about it.

External effects (Playwright calls, filesystem operations) are modelled by
explicit environment records carrying the outcome of each external call; the
Python control flow around those calls is translated faithfully.  Machine
state that the Python code mutates (the gate's token dictionary, the
artifacts dataclass) is passed explicitly.
-/

namespace MDAC

/-! ## ManualGate (`mdac_automation.py`, lines 56-71)

Python state: `self._events : dict[str, asyncio.Event]`.

We model an `asyncio.Event` by a numeric identity (fresh events get fresh
ids, drawn from a counter) plus a global record of which event ids have been
signalled via `.set()`.  The dictionary is an association list with the most
recent binding in front; `create` replaces any existing binding for the same
token, exactly as Python dict assignment does. -/

structure GateState where
  /-- token ↦ event id, the Python `self._events` dict. -/
  events : List (String × Nat)
  /-- next fresh event identity (models allocation of `asyncio.Event()`). -/
  nextId : Nat
  /-- event ids on which `.set()` has been called. -/
  signalled : List Nat
deriving Repr, DecidableEq

namespace ManualGate

/-- `create(token)`: allocate a fresh `asyncio.Event` and store it under
`token` (`self._events[token] = ev`), returning the event.  Dict assignment
overwrites any previous binding of `token`. -/
def create (s : GateState) (token : String) : GateState × Nat :=
  ({ events := (token, s.nextId) :: s.events.filter (fun p => p.1 != token),
     nextId := s.nextId + 1,
     signalled := s.signalled }, s.nextId)

/-- `resume(token)`: `ev = self._events.get(token)`; if absent (`if not ev`,
and an `asyncio.Event` object is always truthy, so this tests `None`),
return `False` with no state change; otherwise `ev.set()`, delete the
mapping, and return `True`. -/
def resume (s : GateState) (token : String) : GateState × Bool :=
  match s.events.lookup token with
  | none => (s, false)
  | some ev =>
      ({ events := s.events.filter (fun p => p.1 != token),
         nextId := s.nextId,
         signalled := ev :: s.signalled }, true)

end ManualGate

/-- The operations that touch the gate's token mapping anywhere in the
repository: `ManualGate.create` (called from `register_one`) and
`ManualGate.resume` (called from the `/resume/{token}` endpoint).  The
timeout path in `register_one` catches `asyncio.TimeoutError` and performs
no gate operation at all, so it is not a constructor here. -/
inductive GateOp where
  | createOp (token : String)
  | resumeOp (token : String)
deriving Repr, DecidableEq

/-- One gate-mutating step. -/
def gateStep (s : GateState) : GateOp → GateState
  | GateOp.createOp t => (ManualGate.create s t).1
  | GateOp.resumeOp t => (ManualGate.resume s t).1

/-- Outcome of the bounded gate wait inside `register_one`
(`asyncio.wait_for(ev.wait(), timeout=GATE_WAIT_SECONDS)`): either the event
was signalled before the ceiling, or the ceiling elapsed. -/
inductive WaitOutcome where
  | resumed
  | timedOut
deriving Repr, DecidableEq

/-- The gate section of `register_one` (`mdac_automation.py`, lines 643-654):
if a pause was requested with a token, `GATE.create(gate_token)` registers a
wait-handle and the workflow suspends on it; a `TimeoutError` is caught and
logged (`"Gate timed out; continuing"`).  The returned `Bool` is `true` iff
the workflow proceeds to the submit step, which it does on both outcomes;
neither outcome mutates the gate state from within `register_one`. -/
def registerGateSection (s : GateState) (pause : Bool) (gate_token : Option String)
    (o : WaitOutcome) : GateState × Bool :=
  match pause, gate_token with
  | true, some tok =>
      let created := ManualGate.create s tok
      match o with
      | WaitOutcome.resumed => (created.1, true)
      | WaitOutcome.timedOut => (created.1, true)
  | _, _ => (s, true)

/-! ### Gate lemmas -/

theorem lookup_filter_self (l : List (String × Nat)) (t : String) :
    (l.filter (fun p => p.1 != t)).lookup t = none := by
  induction l with
  | nil => rfl
  | cons hd tl ih =>
      obtain ⟨a, b⟩ := hd
      rw [List.filter_cons]
      by_cases h : a = t
      · rw [if_neg (by simp [h])]
        exact ih
      · rw [if_pos (by simp [bne_iff_ne, h]), List.lookup_cons]
        have ht : (t == a) = false := by
          simp only [beq_eq_false_iff_ne, ne_eq]
          exact fun e => h e.symm
        rw [ht]
        exact ih

theorem lookup_filter_other (l : List (String × Nat)) (t t' : String) (h : t ≠ t') :
    (l.filter (fun p => p.1 != t')).lookup t = l.lookup t := by
  induction l with
  | nil => rfl
  | cons hd tl ih =>
      obtain ⟨a, b⟩ := hd
      rw [List.filter_cons]
      by_cases hh : a = t'
      · rw [if_neg (by simp [hh])]
        have ht : (t == a) = false := by
          simp only [beq_eq_false_iff_ne, ne_eq, hh]
          exact h
        rw [List.lookup_cons, ht]
        exact ih
      · rw [if_pos (by simp [bne_iff_ne, hh])]
        cases hbeq : (t == a) with
        | true => rw [List.lookup_cons, List.lookup_cons, hbeq]
        | false =>
            rw [List.lookup_cons, List.lookup_cons, hbeq]
            exact ih

/-- An event id that no live mapping references, that has not been signalled
yet, and that sits below the allocation counter.  Such an event is
unreachable: `resume` signals only ids found in the mapping, and every event
allocated later is distinct from it. -/
def orphaned (e : Nat) (s : GateState) : Prop :=
  (∀ p ∈ s.events, p.2 ≠ e) ∧ e ∉ s.signalled ∧ e < s.nextId

/-- Allocation counter discipline: every stored or signalled event id was
allocated, i.e. is below `nextId`.  Holds for the initial empty gate and is
preserved by every operation. -/
def GateState.wf (s : GateState) : Bool :=
  s.events.all (fun p => p.2 < s.nextId) && s.signalled.all (fun e => e < s.nextId)

theorem lookup_mem {l : List (String × Nat)} {t : String} {e : Nat}
    (h : l.lookup t = some e) : (t, e) ∈ l := by
  induction l with
  | nil => simp at h
  | cons hd tl ih =>
      obtain ⟨a, b⟩ := hd
      rw [List.lookup_cons] at h
      cases hbeq : (t == a) with
      | true =>
          rw [hbeq] at h
          have ha : t = a := by simpa using hbeq
          have hb : b = e := Option.some.inj h
          subst ha; subst hb
          exact List.mem_cons_self _ _
      | false =>
          rw [hbeq] at h
          exact List.mem_cons_of_mem _ (ih h)

theorem orphaned_step {e : Nat} {s : GateState} (h : orphaned e s) (op : GateOp) :
    orphaned e (gateStep s op) := by
  obtain ⟨hev, hsig, hlt⟩ := h
  cases op with
  | createOp t =>
      refine ⟨?_, hsig, by simp only [gateStep, ManualGate.create]; omega⟩
      intro p hp
      have hp' : p = (t, s.nextId) ∨ p ∈ s.events.filter (fun q => q.1 != t) := by
        simpa [gateStep, ManualGate.create] using hp
      rcases hp' with h1 | h1
      · rw [h1]
        simp only
        omega
      · exact hev p (List.mem_of_mem_filter h1)
  | resumeOp t =>
      cases hl : s.events.lookup t with
      | none =>
          have hid : gateStep s (GateOp.resumeOp t) = s := by
            simp [gateStep, ManualGate.resume, hl]
          rw [hid]
          exact ⟨hev, hsig, hlt⟩
      | some ev =>
          have hne : ev ≠ e := hev _ (lookup_mem hl)
          refine ⟨?_, ?_, ?_⟩
          · intro p hp
            have hp' : p ∈ s.events.filter (fun q => q.1 != t) := by
              simpa [gateStep, ManualGate.resume, hl] using hp
            exact hev p (List.mem_of_mem_filter hp')
          · intro hmem
            have hm : e = ev ∨ e ∈ s.signalled := by
              simpa [gateStep, ManualGate.resume, hl] using hmem
            rcases hm with h1 | h1
            · exact hne h1.symm
            · exact hsig h1
          · simpa [gateStep, ManualGate.resume, hl] using hlt

theorem orphaned_fold {e : Nat} {s : GateState} (h : orphaned e s) (ops : List GateOp) :
    orphaned e (ops.foldl gateStep s) := by
  induction ops generalizing s with
  | nil => exact h
  | cons op rest ih => exact ih (orphaned_step h op)

/-- **C2.** For every token currently mapped to a pending wait-handle, the
first `resume` returns success and removes the token from the mapping; an
immediately following `resume` of the same token returns failure with the
state unchanged, and a `resume` of any token absent from the mapping returns
failure with the state unchanged. -/
theorem C2_resume_exactly_once (s : GateState) (token : String) (ev : Nat)
    (h : s.events.lookup token = some ev) :
    (ManualGate.resume s token).2 = true ∧
    (ManualGate.resume s token).1.events.lookup token = none ∧
    ManualGate.resume (ManualGate.resume s token).1 token
      = ((ManualGate.resume s token).1, false) ∧
    (∀ (s' : GateState) (t : String), s'.events.lookup t = none →
      ManualGate.resume s' t = (s', false)) := by
  have h2 : (ManualGate.resume s token).1.events.lookup token = none := by
    simp [ManualGate.resume, h, lookup_filter_self]
  have habs : ∀ (s' : GateState) (t : String), s'.events.lookup t = none →
      ManualGate.resume s' t = (s', false) := by
    intro s' t h'
    simp [ManualGate.resume, h']
  exact ⟨by simp [ManualGate.resume, h], h2, habs _ _ h2, habs⟩

theorem C2_witness :
    (ManualGate.resume ⟨[("tok", 0)], 1, []⟩ "tok").2 = true ∧
    (ManualGate.resume ⟨[("tok", 0)], 1, []⟩ "tok").1.events.lookup "tok" = none :=
  ⟨(C2_resume_exactly_once ⟨[("tok", 0)], 1, []⟩ "tok" 0 (by decide)).1,
   (C2_resume_exactly_once ⟨[("tok", 0)], 1, []⟩ "tok" 0 (by decide)).2.1⟩

/-- **C3.** When the gate wait in `register_one` hits its ceiling without an
external resume, the workflow continues past the gate (the section returns
control to the submit step rather than raising), the token registered by
`GATE.create` is still mapped afterwards, and across all gate operations
only an explicit `resume` of a token can remove that token's mapping. -/
theorem C3_timeout_keeps_mapping (s : GateState) (tok : String) :
    (registerGateSection s true (some tok) WaitOutcome.timedOut).2 = true ∧
    (registerGateSection s true (some tok) WaitOutcome.timedOut).1.events.lookup tok
      = some s.nextId ∧
    (∀ (s' : GateState) (op : GateOp) (t : String),
      (s'.events.lookup t).isSome →
      ((gateStep s' op).events.lookup t).isNone →
      op = GateOp.resumeOp t) := by
  refine ⟨rfl, ?_, ?_⟩
  · simp [registerGateSection, ManualGate.create, List.lookup_cons]
  · intro s' op t h1 h2
    cases op with
    | createOp t' =>
        exfalso
        by_cases ht : t = t'
        · subst ht
          simp [gateStep, ManualGate.create, List.lookup_cons] at h2
        · have heq : (gateStep s' (GateOp.createOp t')).events.lookup t
              = s'.events.lookup t := by
            show (((t', s'.nextId) :: s'.events.filter (fun p => p.1 != t')).lookup t)
              = s'.events.lookup t
            rw [List.lookup_cons]
            have hb : (t == t') = false := by
              simp only [beq_eq_false_iff_ne, ne_eq]
              exact ht
            rw [hb]
            exact lookup_filter_other _ _ _ ht
          rw [heq, Option.isNone_iff_eq_none] at h2
          rw [h2] at h1
          simp at h1
    | resumeOp t' =>
        by_cases ht : t = t'
        · rw [ht]
        · exfalso
          cases hl : s'.events.lookup t' with
          | none =>
              have hid : gateStep s' (GateOp.resumeOp t') = s' := by
                simp [gateStep, ManualGate.resume, hl]
              rw [hid, Option.isNone_iff_eq_none] at h2
              rw [h2] at h1
              simp at h1
          | some ev =>
              have he : (gateStep s' (GateOp.resumeOp t')).events
                  = s'.events.filter (fun p => p.1 != t') := by
                simp [gateStep, ManualGate.resume, hl]
              rw [he, lookup_filter_other _ _ _ ht, Option.isNone_iff_eq_none] at h2
              rw [h2] at h1
              simp at h1

theorem C3_witness :
    ((registerGateSection ⟨[], 0, []⟩ true (some "tok") WaitOutcome.timedOut).1.events.lookup
        "tok" = some 0) ∧
    GateOp.resumeOp "tok" = GateOp.resumeOp "tok" :=
  ⟨(C3_timeout_keeps_mapping ⟨[], 0, []⟩ "tok").2.1,
   (C3_timeout_keeps_mapping ⟨[], 0, []⟩ "tok").2.2 ⟨[("tok", 5)], 6, []⟩
     (GateOp.resumeOp "tok") "tok" (by decide) (by decide)⟩

/-- **C10.** A second `create` of a token already mapped replaces the mapping
by a fresh wait-handle: the two handles are distinct, the token now maps to
the fresh one, and the earlier handle can never again be signalled by any
subsequent sequence of gate operations (so a workflow suspended on it can
only unblock via its timeout ceiling). -/
theorem C10_create_replaces_orphans (s : GateState) (h : s.wf = true) (T : String) :
    (ManualGate.create s T).2 ≠ (ManualGate.create (ManualGate.create s T).1 T).2 ∧
    (ManualGate.create (ManualGate.create s T).1 T).1.events.lookup T
      = some (ManualGate.create (ManualGate.create s T).1 T).2 ∧
    (∀ ops : List GateOp,
      (ManualGate.create s T).2
        ∉ (ops.foldl gateStep (ManualGate.create (ManualGate.create s T).1 T).1).signalled) := by
  simp only [GateState.wf, Bool.and_eq_true, List.all_eq_true, decide_eq_true_eq] at h
  obtain ⟨hwe, hws⟩ := h
  refine ⟨by simp only [ManualGate.create]; omega, ?_, ?_⟩
  · simp [ManualGate.create, List.lookup_cons]
  · intro ops
    have horph : orphaned s.nextId
        (ManualGate.create (ManualGate.create s T).1 T).1 := by
      refine ⟨?_, ?_, ?_⟩
      · intro p hp
        have hp' : p = (T, s.nextId + 1) ∨
            p ∈ ((T, s.nextId) :: s.events.filter (fun q => q.1 != T)).filter
              (fun q => q.1 != T) := by
          simpa [ManualGate.create] using hp
        rcases hp' with h1 | h1
        · rw [h1]
          simp only
          omega
        · rw [List.mem_filter] at h1
          obtain ⟨hmem, hf⟩ := h1
          rcases List.mem_cons.mp hmem with h2 | h2
          · exfalso
            rw [h2] at hf
            simp at hf
          · have h3 := List.mem_of_mem_filter h2
            have := hwe p h3
            omega
      · intro hmem
        have hm : s.nextId ∈ s.signalled := by
          simpa [ManualGate.create] using hmem
        have := hws _ hm
        omega
      · simp only [ManualGate.create]
        omega
    exact (orphaned_fold horph ops).2.1

theorem C10_witness :
    GateState.wf ⟨[], 0, []⟩ = true ∧
    (0 : Nat) ∉ (([GateOp.resumeOp "t"]).foldl gateStep
      (ManualGate.create (ManualGate.create ⟨[], 0, []⟩ "t").1 "t").1).signalled :=
  ⟨by decide,
   (C10_create_replaces_orphans ⟨[], 0, []⟩ (by decide) "t").2.2 [GateOp.resumeOp "t"]⟩

/-! ## Artifacts (`mdac_automation.py`, lines 75-79, 177-242, 245-277)

`ContextArtifacts` is the Python dataclass; `Path` values are modelled as
strings. -/

structure ContextArtifacts where
  video_path : Option String
  trace_path : Option String
  screenshots_dir : Option String
deriving Repr, DecidableEq

/-- Outcomes of the external calls made by `open_context` after the (fatal)
browser/context launch has succeeded.  Filesystem and Playwright failures are
per-call and caught in the Python code. -/
structure OpenEnv where
  /-- `record_video_dir` argument. -/
  recordVideoDir : Option String
  /-- whether `record_video_dir.mkdir(...)` succeeds. -/
  mkdirVideoOk : Bool
  /-- `download_dir` argument. -/
  downloadDir : Option String
  /-- whether `download_dir.mkdir(...)` succeeds. -/
  mkdirDownloadOk : Bool
  /-- module flag `RECORD_TRACE`. -/
  recordTrace : Bool
  /-- whether `context.tracing.start(...)` succeeds. -/
  traceStartOk : Bool
deriving Repr, DecidableEq

/-- The `ContextArtifacts` value returned by `open_context`: `video_path`
and `trace_path` are passed as `None`; `screenshots_dir` is
`<record_video_dir>/screens` when a recording dir was requested and its
`mkdir` succeeded (lines 201-210), else `None`. -/
def open_context_artifacts (env : OpenEnv) : ContextArtifacts :=
  let screenshots_dir : Option String :=
    match env.recordVideoDir with
    | some d => if env.mkdirVideoOk then some (d ++ "/screens") else none
    | none => none
  { video_path := none, trace_path := none, screenshots_dir := screenshots_dir }

/-- Outcomes of the external calls made by `_finalize_artifacts`. -/
structure FinalizeEnv where
  /-- module flag `RECORD_TRACE`. -/
  recordTrace : Bool
  /-- `record_dir` argument. -/
  recordDir : Option String
  /-- whether `context.tracing.stop(path=...)` succeeds. -/
  traceStopOk : Bool
  /-- whether `context.close()` succeeds. -/
  closeOk : Bool
  /-- whether `page.video` is non-`None`. -/
  pageHasVideo : Bool
  /-- whether `page.video.path()` succeeds. -/
  videoPathOk : Bool
  /-- the value returned by `page.video.path()` when it succeeds. -/
  videoPath : String
deriving Repr, DecidableEq

/-- The three teardown steps of `_finalize_artifacts`. -/
inductive FinStep where
  | traceStop
  | closeCtx
  | videoResolve
deriving Repr, DecidableEq

/-- Step 1 (lines 251-259): if `RECORD_TRACE` and a record dir was given,
try `tracing.stop`; on success record `record_dir/trace.zip`, on failure log
and continue. -/
def finStep1 (env : FinalizeEnv) (a : ContextArtifacts) : ContextArtifacts :=
  match env.recordDir with
  | some d =>
      if env.recordTrace && env.traceStopOk then { a with trace_path := some (d ++ "/trace.zip") }
      else a
  | none => a

/-- Step 2 (lines 261-266): `context.close()` inside `try/except`; the
artifacts record is not touched, success or failure is only logged. -/
def finStep2 (_env : FinalizeEnv) (a : ContextArtifacts) : ContextArtifacts :=
  a

/-- Step 3 (lines 268-275): inside `try/except`, if `page.video` exists,
fetch its path and record it; any failure is logged and leaves the field
unchanged. -/
def finStep3 (env : FinalizeEnv) (a : ContextArtifacts) : ContextArtifacts :=
  if env.pageHasVideo && env.videoPathOk then { a with video_path := some env.videoPath }
  else a

/-- `_finalize_artifacts`, with an explicit journal of the attempted steps
and their outcomes (`true` = the `try` body completed, `false` = the caught
exception path was taken and logged).  The steps run unconditionally in
order, each wrapped in its own `try/except`. -/
def finalizeRun (env : FinalizeEnv) (a : ContextArtifacts) :
    ContextArtifacts × List (FinStep × Bool) :=
  let (a1, j1) :=
    match env.recordDir with
    | some d =>
        if env.recordTrace then
          (if env.traceStopOk then { a with trace_path := some (d ++ "/trace.zip") } else a,
           [(FinStep.traceStop, env.traceStopOk)])
        else (a, [])
    | none => (a, [])
  let j2 := j1 ++ [(FinStep.closeCtx, env.closeOk)]
  let a3 :=
    if env.pageHasVideo && env.videoPathOk then { a1 with video_path := some env.videoPath }
    else a1
  (a3, j2 ++ [(FinStep.videoResolve, !env.pageHasVideo || env.videoPathOk)])

/-- `finalizeRun` is the sequential composition of the three step functions
(the journal tracks attempts; the artifacts value flows through the steps). -/
theorem finalizeRun_eq_steps (env : FinalizeEnv) (a : ContextArtifacts) :
    (finalizeRun env a).1 = finStep3 env (finStep2 env (finStep1 env a)) := by
  cases hd : env.recordDir with
  | none => simp [finalizeRun, finStep1, finStep2, finStep3, hd]
  | some d =>
      cases ht : env.recordTrace with
      | false => simp [finalizeRun, finStep1, finStep2, finStep3, hd, ht]
      | true =>
          cases hs : env.traceStopOk with
          | false => simp [finalizeRun, finStep1, finStep2, finStep3, hd, ht, hs]
          | true => simp [finalizeRun, finStep1, finStep2, finStep3, hd, ht, hs]

/-- **C1 (counterexample).** The claim says a failed context close leaves
`video_path` unpopulated.  In the code, the video-path resolution step runs
inside its own `try/except` after the close attempt and is not conditioned
on the close having succeeded: with a failed close but a successful
`page.video.path()` call, `video_path` is populated. -/
theorem C1_counterexample :
    (FinStep.closeCtx, false) ∈
      (finalizeRun ⟨true, some "rec", true, false, true, true, "rec/video.webm"⟩
        ⟨none, none, none⟩).2 ∧
    (finalizeRun ⟨true, some "rec", true, false, true, true, "rec/video.webm"⟩
        ⟨none, none, none⟩).1.video_path = some "rec/video.webm" := by
  constructor
  · decide
  · rfl

/-- **C1 (amended).** `video_path` is never populated before the
context-close step completes: starting from artifacts with `video_path`
unpopulated, it is still unpopulated after step 1 (trace stop) and after
step 2 (close attempt), the whole finalizer being step 3 run after steps 1
and 2; and it becomes populated only when the step-3 resolution itself
succeeds (`page.video` exists and `page.video.path()` returns), regardless
of whether the close succeeded or failed. -/
theorem C1_video_after_close (env : FinalizeEnv) (a : ContextArtifacts)
    (h : a.video_path = none) :
    (finStep1 env a).video_path = none ∧
    (finStep2 env (finStep1 env a)).video_path = none ∧
    (finalizeRun env a).1 = finStep3 env (finStep2 env (finStep1 env a)) ∧
    ((finalizeRun env a).1.video_path ≠ none →
      env.pageHasVideo = true ∧ env.videoPathOk = true) := by
  have h1 : (finStep1 env a).video_path = none := by
    cases hd : env.recordDir with
    | none => simpa [finStep1, hd] using h
    | some d =>
        cases hc : env.recordTrace && env.traceStopOk with
        | false => simpa [finStep1, hd, hc] using h
        | true => simpa [finStep1, hd, hc] using h
  refine ⟨h1, h1, finalizeRun_eq_steps env a, ?_⟩
  intro hne
  rw [finalizeRun_eq_steps env a] at hne
  cases hc : env.pageHasVideo && env.videoPathOk with
  | false =>
      exfalso
      apply hne
      simpa [finStep3, hc, finStep2] using h1
  | true =>
      exact ⟨(Bool.and_eq_true _ _ ▸ hc).1, (Bool.and_eq_true _ _ ▸ hc).2⟩

theorem C1_witness :
    ((⟨none, none, none⟩ : ContextArtifacts).video_path = none) ∧
    ((finalizeRun ⟨true, some "rec", true, false, true, true, "rec/v.webm"⟩
        ⟨none, none, none⟩).1.video_path ≠ none) ∧
    (⟨true, some "rec", true, false, true, true, "rec/v.webm"⟩ : FinalizeEnv).pageHasVideo
      = true :=
  ⟨rfl, by decide,
   ((C1_video_after_close ⟨true, some "rec", true, false, true, true, "rec/v.webm"⟩
      ⟨none, none, none⟩ rfl).2.2.2 (by decide)).1⟩

/-- **C6.** The finalizer attempts its steps in fixed order independently of
any step's outcome: the list of attempted steps depends only on the tracing
configuration (never on the success flags), context close and video
resolution are always attempted, and context close is attempted whenever
trace stop was attempted. -/
theorem C6_finalize_attempts_all_steps (env : FinalizeEnv) (a : ContextArtifacts) :
    ((finalizeRun env a).2.map Prod.fst =
      (if env.recordTrace && env.recordDir.isSome then [FinStep.traceStop] else [])
        ++ [FinStep.closeCtx, FinStep.videoResolve]) ∧
    FinStep.closeCtx ∈ (finalizeRun env a).2.map Prod.fst ∧
    FinStep.videoResolve ∈ (finalizeRun env a).2.map Prod.fst ∧
    (FinStep.traceStop ∈ (finalizeRun env a).2.map Prod.fst →
      FinStep.closeCtx ∈ (finalizeRun env a).2.map Prod.fst) := by
  have hsteps : (finalizeRun env a).2.map Prod.fst =
      (if env.recordTrace && env.recordDir.isSome then [FinStep.traceStop] else [])
        ++ [FinStep.closeCtx, FinStep.videoResolve] := by
    cases hd : env.recordDir with
    | none => simp [finalizeRun, hd]
    | some d =>
        cases ht : env.recordTrace with
        | false => simp [finalizeRun, hd, ht]
        | true => simp [finalizeRun, hd, ht]
  have hclose : FinStep.closeCtx ∈ (finalizeRun env a).2.map Prod.fst := by
    rw [hsteps]
    simp
  refine ⟨hsteps, hclose, ?_, fun _ => hclose⟩
  rw [hsteps]
  simp

theorem C6_witness :
    FinStep.traceStop ∈
      (finalizeRun ⟨true, some "rec", false, false, false, false, ""⟩
        ⟨none, none, none⟩).2.map Prod.fst ∧
    FinStep.closeCtx ∈
      (finalizeRun ⟨true, some "rec", false, false, false, false, ""⟩
        ⟨none, none, none⟩).2.map Prod.fst :=
  ⟨by decide,
   (C6_finalize_attempts_all_steps ⟨true, some "rec", false, false, false, false, ""⟩
      ⟨none, none, none⟩).2.2.2 (by decide)⟩

/-- **C8 (counterexample).** The claim says the artifacts descriptor is
empty at creation (all three fields unpopulated).  When a recording
directory is requested and prepared, `open_context` returns the descriptor
with `screenshots_dir` already populated (line 241). -/
theorem C8_counterexample :
    (open_context_artifacts ⟨some "rec", true, none, true, true, true⟩).screenshots_dir
      = some "rec/screens" ∧
    some "rec/screens" ≠ (none : Option String) := by
  constructor
  · rfl
  · intro hcontra
    cases hcontra

/-- **C8 (amended).** At creation `video_path` and `trace_path` are
unpopulated; `screenshots_dir` is populated exactly when a recording
directory was requested and successfully prepared; and the finalizer (the
only code that later mutates the descriptor) never changes
`screenshots_dir`. -/
theorem C8_artifacts_at_creation (env : OpenEnv) :
    (open_context_artifacts env).video_path = none ∧
    (open_context_artifacts env).trace_path = none ∧
    ((open_context_artifacts env).screenshots_dir.isSome
      = (env.recordVideoDir.isSome && env.mkdirVideoOk)) ∧
    (∀ (fenv : FinalizeEnv) (a : ContextArtifacts),
      (finalizeRun fenv a).1.screenshots_dir = a.screenshots_dir) := by
  refine ⟨rfl, rfl, ?_, ?_⟩
  · cases hd : env.recordVideoDir with
    | none => simp [open_context_artifacts, hd]
    | some d =>
        cases hm : env.mkdirVideoOk with
        | false => simp [open_context_artifacts, hd, hm]
        | true => simp [open_context_artifacts, hd, hm]
  · intro fenv a
    rw [finalizeRun_eq_steps]
    simp only [finStep2, finStep3, finStep1]
    cases hd : fenv.recordDir with
    | none =>
        cases hc : fenv.pageHasVideo && fenv.videoPathOk with
        | false => simp
        | true => simp
    | some d =>
        cases ht : fenv.recordTrace && fenv.traceStopOk with
        | false =>
            cases hc : fenv.pageHasVideo && fenv.videoPathOk with
            | false => simp
            | true => simp
        | true =>
            cases hc : fenv.pageHasVideo && fenv.videoPathOk with
            | false => simp
            | true => simp

/-! ## Field mappers (`mdac_automation.py`, lines 322-336)

`Optional[str]` arguments become `Option String`; Python's falsiness test
`if not g` is `none`-or-empty.  Python's `str.strip` / `str.lower` /
`str.startswith` are modelled character-wise over the string's characters
(ASCII case folding, Python's whitespace set). -/

/-- The whitespace characters removed by Python's `str.strip()`. -/
def pyIsSpace (c : Char) : Bool :=
  c = ' ' || c = '\t' || c = '\n' || c = '\r' || c = '\x0b' || c = '\x0c'

/-- Python `str.strip()`. -/
def pyStrip (s : String) : String :=
  String.mk (((s.toList.dropWhile pyIsSpace).reverse.dropWhile pyIsSpace).reverse)

/-- ASCII lowering of one character, as Python `str.lower()` does on ASCII. -/
def pyLowerChar (c : Char) : Char :=
  if 'A' ≤ c && c ≤ 'Z' then Char.ofNat (c.toNat + 32) else c

/-- Python `str.lower()`. -/
def pyLower (s : String) : String :=
  String.mk (s.toList.map pyLowerChar)

/-- Python `str.startswith(pre)`. -/
def pyStartsWith (s pre : String) : Bool :=
  pre.toList.isPrefixOf s.toList

/-- `_map_gender`: empty for missing/empty input, else strip + lowercase and
map by prefix: `m…` ↦ `"1"` (MALE), `f…` ↦ `"2"` (FEMALE), else empty. -/
def _map_gender (g : Option String) : String :=
  match g with
  | none => ""
  | some g0 =>
      if g0 = "" then ""
      else
        let g1 := pyLower (pyStrip g0)
        if pyStartsWith g1 "m" then "1"
        else if pyStartsWith g1 "f" then "2"
        else ""

/-- `_map_mode`: empty for missing/empty input, else strip + lowercase and
map by prefix: `air…` ↦ `"1"`, `land…` ↦ `"2"`, `sea…` ↦ `"3"`, else
empty. -/
def _map_mode (m : Option String) : String :=
  match m with
  | none => ""
  | some m0 =>
      if m0 = "" then ""
      else
        let m1 := pyLower (pyStrip m0)
        if pyStartsWith m1 "air" then "1"
        else if pyStartsWith m1 "land" then "2"
        else if pyStartsWith m1 "sea" then "3"
        else ""

/-- **C5 (counterexample).** The claim says the sex-code mapping yields the
empty string for every input other than male/female.  The code matches by
prefix: `"moon"` denotes neither sex, yet maps to `"1"`. -/
theorem C5_counterexample :
    _map_gender (some "moon") = "1" ∧ ("1" : String) ≠ "" := by
  decide

/-- **C5 (amended).** The mappings are by case-insensitive prefix on the
stripped input: gender starting with `m` ↦ `"1"`, with `f` ↦ `"2"`, else
(including missing and empty) `""`; travel mode starting with `air` ↦
`"1"`, `land` ↦ `"2"`, `sea` ↦ `"3"`, else (including missing) `""`.  In
particular `male` ↦ `"1"`, `Female` ↦ `"2"`, `Air` ↦ `"1"`, `land` ↦
`"2"`, `SEA` ↦ `"3"`. -/
theorem C5_prefix_code_mapping :
    _map_gender none = "" ∧
    _map_gender (some "male") = "1" ∧
    _map_gender (some "Female") = "2" ∧
    (∀ s : String, pyStartsWith (pyLower (pyStrip s)) "m" = true →
      _map_gender (some s) = "1") ∧
    (∀ s : String, pyStartsWith (pyLower (pyStrip s)) "m" = false →
      pyStartsWith (pyLower (pyStrip s)) "f" = true → _map_gender (some s) = "2") ∧
    (∀ s : String, pyStartsWith (pyLower (pyStrip s)) "m" = false →
      pyStartsWith (pyLower (pyStrip s)) "f" = false → _map_gender (some s) = "") ∧
    _map_mode none = "" ∧
    _map_mode (some "Air") = "1" ∧
    _map_mode (some "land") = "2" ∧
    _map_mode (some "SEA") = "3" ∧
    (∀ s : String, pyStartsWith (pyLower (pyStrip s)) "air" = true →
      _map_mode (some s) = "1") ∧
    (∀ s : String, pyStartsWith (pyLower (pyStrip s)) "air" = false →
      pyStartsWith (pyLower (pyStrip s)) "land" = true → _map_mode (some s) = "2") ∧
    (∀ s : String, pyStartsWith (pyLower (pyStrip s)) "air" = false →
      pyStartsWith (pyLower (pyStrip s)) "land" = false →
      pyStartsWith (pyLower (pyStrip s)) "sea" = true → _map_mode (some s) = "3") ∧
    (∀ s : String, pyStartsWith (pyLower (pyStrip s)) "air" = false →
      pyStartsWith (pyLower (pyStrip s)) "land" = false →
      pyStartsWith (pyLower (pyStrip s)) "sea" = false → _map_mode (some s) = "") := by
  refine ⟨rfl, by decide, by decide, ?_, ?_, ?_, rfl, by decide, by decide, by decide,
    ?_, ?_, ?_, ?_⟩
  · intro s h
    by_cases hs : s = ""
    · subst hs
      exact absurd h (by decide)
    · simp [_map_gender, hs, h]
  · intro s h1 h2
    by_cases hs : s = ""
    · subst hs
      exact absurd h2 (by decide)
    · simp [_map_gender, hs, h1, h2]
  · intro s h1 h2
    by_cases hs : s = ""
    · simp [_map_gender, hs]
    · simp [_map_gender, hs, h1, h2]
  · intro s h
    by_cases hs : s = ""
    · subst hs
      exact absurd h (by decide)
    · simp [_map_mode, hs, h]
  · intro s h1 h2
    by_cases hs : s = ""
    · subst hs
      exact absurd h2 (by decide)
    · simp [_map_mode, hs, h1, h2]
  · intro s h1 h2 h3
    by_cases hs : s = ""
    · subst hs
      exact absurd h3 (by decide)
    · simp [_map_mode, hs, h1, h2, h3]
  · intro s h1 h2 h3
    by_cases hs : s = ""
    · simp [_map_mode, hs]
    · simp [_map_mode, hs, h1, h2, h3]

theorem C5_witness :
    _map_gender (some " M ") = "1" ∧
    _map_mode (some "Sea ") = "3" :=
  ⟨(C5_prefix_code_mapping).2.2.2.1 " M " (by decide),
   (C5_prefix_code_mapping).2.2.2.2.2.2.2.2.2.2.2.2.1 "Sea " (by decide) (by decide)
     (by decide)⟩

/-! ## Date setting (`mdac_automation.py`, lines 353-501)

`set_date_by_id` first normalizes the incoming text, then locates the
element, then runs a JS widget cascade whose result is only logged.  The
three accepted shapes are the source's regexes
`^(\d{4})-(\d{2})-(\d{2})$`, `^(\d{2})-(\d{2})-(\d{4})$` and
`^(\d{2})/(\d{2})/(\d{4})$`. -/

/-- Matcher for `^(\d{4})-(\d{2})-(\d{2})$`, returning the
(year, month, day) groups. -/
def matchYMD (s : String) : Option (String × String × String) :=
  match s.toList with
  | [y1, y2, y3, y4, '-', m1, m2, '-', d1, d2] =>
      if [y1, y2, y3, y4, m1, m2, d1, d2].all Char.isDigit then
        some (String.mk [y1, y2, y3, y4], String.mk [m1, m2], String.mk [d1, d2])
      else none
  | _ => none

/-- Matcher for `^(\d{2})-(\d{2})-(\d{4})$`, returning the
(day, month, year) groups. -/
def matchDMYdash (s : String) : Option (String × String × String) :=
  match s.toList with
  | [d1, d2, '-', m1, m2, '-', y1, y2, y3, y4] =>
      if [d1, d2, m1, m2, y1, y2, y3, y4].all Char.isDigit then
        some (String.mk [d1, d2], String.mk [m1, m2], String.mk [y1, y2, y3, y4])
      else none
  | _ => none

/-- Matcher for `^(\d{2})/(\d{2})/(\d{4})$`, returning the
(day, month, year) groups. -/
def matchDMYslash (s : String) : Option (String × String × String) :=
  match s.toList with
  | [d1, d2, '/', m1, m2, '/', y1, y2, y3, y4] =>
      if [d1, d2, m1, m2, y1, y2, y3, y4].all Char.isDigit then
        some (String.mk [d1, d2], String.mk [m1, m2], String.mk [y1, y2, y3, y4])
      else none
  | _ => none

/-- The normalization block of `set_date_by_id` (lines 361-376):
`(date_str or "").strip()`, then the three shapes in order, producing the
canonical `DD/MM/YYYY` text, or `none` for an unsupported format (the
function then logs and returns without touching the field). -/
def normalizeDate (date_str : Option String) : Option String :=
  let s := pyStrip (date_str.getD "")
  match matchYMD s with
  | some (yyyy, mm, dd) => some (dd ++ "/" ++ mm ++ "/" ++ yyyy)
  | none =>
      match matchDMYdash s with
      | some (dd, mm, yyyy) => some (dd ++ "/" ++ mm ++ "/" ++ yyyy)
      | none =>
          match matchDMYslash s with
          | some (dd, mm, yyyy) => some (dd ++ "/" ++ mm ++ "/" ++ yyyy)
          | none => none

/-- External outcome for `set_date_by_id`: whether
`page.wait_for_selector(sel)` finds the date field in time. -/
structure DateEnv where
  fieldPresent : Bool
deriving Repr, DecidableEq

/-- Result of one `set_date_by_id` call.  `attemptedWrite v` means the JS
widget cascade was invoked with the normalized value `v` (its own outcome is
only logged); the other two constructors are the early returns.  The Python
function raises in no case. -/
inductive DateOutcome where
  | unsupportedFormat
  | fieldNotFound
  | attemptedWrite (value : String)
deriving Repr, DecidableEq

/-- Control flow of `set_date_by_id` (lines 353-501): unsupported format →
log and return without writing; field absent → log and return; otherwise
run the write cascade with the normalized `DD/MM/YYYY` text. -/
def set_date_by_id (env : DateEnv) (date_str : Option String) : DateOutcome :=
  match normalizeDate date_str with
  | none => DateOutcome.unsupportedFormat
  | some v =>
      if env.fieldPresent then DateOutcome.attemptedWrite v
      else DateOutcome.fieldNotFound

/-- **C4.** Date-field writes normalize `"2024-05-07"` and `"07-05-2024"`
to `"07/05/2024"`, pass `"07/05/2024"` through unchanged, write exactly the
normalized value when the field is present, and for any input matching none
of the three accepted shapes return without writing (and without raising —
the model function is total), logging the failure. -/
theorem C4_date_normalization :
    normalizeDate (some "2024-05-07") = some "07/05/2024" ∧
    normalizeDate (some "07-05-2024") = some "07/05/2024" ∧
    normalizeDate (some "07/05/2024") = some "07/05/2024" ∧
    (∀ (env : DateEnv) (d : Option String) (v : String),
      env.fieldPresent = true → normalizeDate d = some v →
      set_date_by_id env d = DateOutcome.attemptedWrite v) ∧
    (∀ (env : DateEnv) (d : Option String),
      normalizeDate d = none → set_date_by_id env d = DateOutcome.unsupportedFormat) := by
  refine ⟨by decide, by decide, by decide, ?_, ?_⟩
  · intro env d v hf hn
    simp [set_date_by_id, hn, hf]
  · intro env d hn
    simp [set_date_by_id, hn]

theorem C4_witness :
    set_date_by_id ⟨true⟩ (some "2024-05-07") = DateOutcome.attemptedWrite "07/05/2024" ∧
    set_date_by_id ⟨true⟩ (some "May 7, 2024") = DateOutcome.unsupportedFormat :=
  ⟨(C4_date_normalization).2.2.2.1 ⟨true⟩ (some "2024-05-07") "07/05/2024" rfl (by decide),
   (C4_date_normalization).2.2.2.2 ⟨true⟩ (some "May 7, 2024") (by decide)⟩

/-! ## Fuzzy control matching (`mdac_automation.py`, lines 295-318)

`click_if_exists` queries the page for buttons, then links, whose accessible
name matches the pattern; each query-and-click is inside its own
`try/except`.  The clicks are written `await btn.first().click()` and
`await link.first().click()`.  In the Playwright Python API `Locator.first`
is a property, not a method, so `btn.first()` calls a `Locator` object and
deterministically raises `TypeError` ("Locator object is not callable")
before any click can happen; each `except` block logs the error and control
falls through. -/

/-- Page state for one `click_if_exists` call against a fixed pattern: how
many buttons and links have an accessible name matching it. -/
structure ClickEnv where
  buttonCount : Nat
  linkCount : Nat
deriving Repr, DecidableEq

/-- Which element the call ended up clicking. -/
inductive ClickedElem where
  | button
  | link
  | neither
deriving Repr, DecidableEq

/-- The logged events of one `click_if_exists` call, in order: match found
(`log_ok`), click attempt failed (`log_err`, the caught `TypeError`), final
no-click warning (`log_warn`). -/
inductive ClickEvent where
  | buttonMatchFound
  | buttonClickError
  | linkMatchFound
  | linkClickError
  | noMatchWarning
deriving Repr, DecidableEq

/-- The evaluation of `loc.first()` followed by `.click()`: `Locator.first`
is a property, so the call expression `loc.first()` invokes a `Locator`
object and raises `TypeError` for every locator — the click is never
reached. -/
def firstCallClick : Except String Unit :=
  Except.error "TypeError: Locator object is not callable"

/-- One branch of `click_if_exists` (`try: if await loc.count(): log_ok;
await loc.first().click(); log_ok; return True / except: log_err`).
`(some true, evs)` means the branch returned `True` after clicking;
`(none, evs)` means control fell through to the code after the branch. -/
def clickBranch (count : Nat) (matchEv errEv : ClickEvent) :
    Option Bool × List ClickEvent :=
  if count > 0 then
    match firstCallClick with
    | Except.ok _ => (some true, [matchEv])
    | Except.error _ => (none, [matchEv, errEv])
  else (none, [])

/-- `click_if_exists`: button branch, then link branch, then
`log_warn` + `return False`.  A branch that returns `True` reports the
element it clicked. -/
def click_if_exists (env : ClickEnv) : Bool × ClickedElem × List ClickEvent :=
  let btn := clickBranch env.buttonCount ClickEvent.buttonMatchFound ClickEvent.buttonClickError
  match btn.1 with
  | some _ => (true, ClickedElem.button, btn.2)
  | none =>
      let lnk := clickBranch env.linkCount ClickEvent.linkMatchFound ClickEvent.linkClickError
      match lnk.1 with
      | some _ => (true, ClickedElem.link, btn.2 ++ lnk.2)
      | none => (false, ClickedElem.neither, btn.2 ++ lnk.2 ++ [ClickEvent.noMatchWarning])

/-- **C9.** The claim says that when both a button and a link match the
pattern, the button is the element clicked and the click succeeds.  Because
`btn.first()` and `link.first()` raise `TypeError` before any click, the
call logs both match findings and both click errors, clicks neither
element, and returns `False` with the final no-match warning — for every
page on which both a button and a link match. -/
theorem C9_click_never_succeeds (env : ClickEnv)
    (hb : env.buttonCount > 0) (hl : env.linkCount > 0) :
    click_if_exists env =
      (false, ClickedElem.neither,
        [ClickEvent.buttonMatchFound, ClickEvent.buttonClickError,
         ClickEvent.linkMatchFound, ClickEvent.linkClickError,
         ClickEvent.noMatchWarning]) := by
  simp [click_if_exists, clickBranch, firstCallClick, hb, hl]

theorem C9_code_bug_witness :
    click_if_exists ⟨1, 1⟩ =
      (false, ClickedElem.neither,
        [ClickEvent.buttonMatchFound, ClickEvent.buttonClickError,
         ClickEvent.linkMatchFound, ClickEvent.linkClickError,
         ClickEvent.noMatchWarning]) :=
  C9_click_never_succeeds ⟨1, 1⟩ (by decide) (by decide)

/-! ## Download workflow (`mdac_automation.py`, lines 683-758)

After navigation, form fill and submit (all best-effort), `download_one`
tries the direct file-download strategy inside one `try/except`; on any
failure there it tries the popup-PDF strategy inside another `try/except`;
if that also fails it returns `None`. -/

/-- External outcomes of one `download_one` call: does the direct download
strategy run to completion within its bounds (download event fires and the
file saves), and with what suggested filename; does the popup strategy run
to completion, and with what timestamp for the output name. -/
structure DownloadEnv where
  directOk : Bool
  suggestedFilename : String
  popupOk : Bool
  popupStamp : Nat
deriving Repr, DecidableEq

/-- The two download strategies, in the order the code tries them. -/
inductive DlStrategy where
  | direct
  | popup
deriving Repr, DecidableEq

/-- `download_one`'s strategy cascade: returns the saved path (`none` when
both strategies fail — the function returns `None` rather than raising)
together with the list of strategies attempted, in order. -/
def download_one (env : DownloadEnv) (passport : String) (downloadDir : String) :
    Option String × List DlStrategy :=
  if env.directOk then
    (some (downloadDir ++ "/" ++ passport ++ "_" ++ env.suggestedFilename),
     [DlStrategy.direct])
  else if env.popupOk then
    (some (downloadDir ++ "/" ++ passport ++ "_" ++ toString env.popupStamp ++ ".pdf"),
     [DlStrategy.direct, DlStrategy.popup])
  else
    (none, [DlStrategy.direct, DlStrategy.popup])

/-- **C7.** If the direct download strategy succeeds within its bound, the
popup strategy is never attempted and the saved file path is returned; if
the direct strategy fails, the popup strategy is attempted before any
failure is declared; both failing yields `none` (an absent result, not a
raised error — the model function is total). -/
theorem C7_download_strategy_order (env : DownloadEnv) (passport downloadDir : String) :
    (env.directOk = true →
      DlStrategy.popup ∉ (download_one env passport downloadDir).2 ∧
      (download_one env passport downloadDir).1
        = some (downloadDir ++ "/" ++ passport ++ "_" ++ env.suggestedFilename)) ∧
    (env.directOk = false →
      (download_one env passport downloadDir).2 = [DlStrategy.direct, DlStrategy.popup]) ∧
    (env.directOk = false → env.popupOk = false →
      (download_one env passport downloadDir).1 = none) := by
  refine ⟨?_, ?_, ?_⟩
  · intro h
    constructor
    · simp [download_one, h]
    · simp [download_one, h]
  · intro h
    cases hp : env.popupOk with
    | false => simp [download_one, h, hp]
    | true => simp [download_one, h, hp]
  · intro h hp
    simp [download_one, h, hp]

theorem C7_witness :
    (DlStrategy.popup ∉ (download_one ⟨true, "mdac.pdf", false, 0⟩ "P123" "dl").2 ∧
      (download_one ⟨true, "mdac.pdf", false, 0⟩ "P123" "dl").1
        = some "dl/P123_mdac.pdf") ∧
    (download_one ⟨false, "", false, 7⟩ "P123" "dl").1 = none :=
  ⟨(C7_download_strategy_order ⟨true, "mdac.pdf", false, 0⟩ "P123" "dl").1 rfl,
   (C7_download_strategy_order ⟨false, "", false, 7⟩ "P123" "dl").2.2 rfl rfl⟩

end MDAC
